import Mathlib

/-!
Shallow embedding of `src/smart_pointers.h` (a reference-counted smart-pointer
library: `SharedPtr`, `WeakPtr`, `EnableSharedFromThis`, with two control-block
variants `regular_block` and `shared_block`).

The model tracks one control block as explicit state.  A handle (`SP` for
`SharedPtr`, `WP` for `WeakPtr`) records whether its raw pointer is non-null
and whether its `_control_block` member is non-null (there is a single block
in scope, so a `Bool` identifies it).  Every operation is translated directly
from the member function bodies in the header; instrumentation counters
`destroyCount` / `deallocCount` count the actual object destructions and
`deallocate()` invocations, mirroring the destruction-counting and
allocation-counting test types the specification appeals to.

`EnableSharedFromThis` stores a `WeakPtr` member inside the managed object;
when the object is destroyed that member's destructor runs reentrantly.  The
model records this member in the block state  (`embeddedWeak`) and replays its
destructor inside the object-destruction step, exactly as C++ destructor
semantics prescribe.
-/

/-- Which concrete control-block variant the block is: `regular_block`
( separately allocated object, deleter + allocator) or `shared_block`
(object colocated inside the block, as produced by `allocateShared`). -/
inductive BlockVariant where
  | regular
  | colocated
deriving DecidableEq

/-- State of one control block together with the managed object.
`shared` / `weak` are `_shared_counter` / `_weak_counter` of `base_block`;
`blockPtr` says whether `regular_block::_pointer` is non-null;
`deleterDestroys` says whether the `Deleter` actually ends the object's
lifetime (`std::default_delete` does; a user-supplied no-op deleter does not);
`objAlive` tracks the managed object's lifetime; `embeddedWeak` says whether
the managed object holds a `WeakPtr` member referencing this very block
(installed by `EnableSharedFromThis::set_pointer`); `allocated` tracks whether
the block's own storage is still allocated; `destroyCount` counts how many
times the object's destruction has been run, `deallocCount` how many times
`deallocate()` has been invoked. -/
structure BlockState where
  shared : Nat
  weak : Nat
  variant : BlockVariant
  blockPtr : Bool
  deleterDestroys : Bool
  objAlive : Bool
  embeddedWeak : Bool
  allocated : Bool
  destroyCount : Nat
  deallocCount : Nat
deriving DecidableEq

/-- A `SharedPtr<T>` value: whether `_ptr` is non-null and whether
`_control_block` is non-null. -/
structure SP where
  ptr : Bool
  hasBlock : Bool
deriving DecidableEq

/-- A `WeakPtr<T>` value: whether `_ptr` is non-null and whether
`_control_block` is non-null. -/
structure WP where
  ptr : Bool
  hasBlock : Bool
deriving DecidableEq

/-- Invocation of `base_block::deallocate()` (either variant releases the
block's own storage through the rebound allocator). -/
def blockDeallocate (st : BlockState) : BlockState :=
  { st with allocated := false, deallocCount := st.deallocCount + 1 }

/-- Destructor of the `WeakPtr` member embedded in the managed object
(`EnableSharedFromThis::_weak_ptr`), run when the object is destroyed and the
member references this block: `--_weak_counter;` then
`if (_shared_counter == 0 && _weak_counter == 0) deallocate();`. -/
def embeddedWeakDtor (st : BlockState) : BlockState :=
  let st1 := { st with weak := st.weak - 1, embeddedWeak := false }
  if st1.shared = 0 ∧ st1.weak = 0 then blockDeallocate st1 else st1

/-- Ending the managed object's lifetime.  C++ runs the destructors of the
object's members, so if the object holds an embedded `WeakPtr` to this block
that member's destructor runs here. -/
def objectDestruction (st : BlockState) : BlockState :=
  let st1 := { st with objAlive := false, destroyCount := st.destroyCount + 1 }
  if st.embeddedWeak then embeddedWeakDtor st1 else st1

/-- Invocation of `base_block::destroy()`, dispatched on the variant.
`regular_block::destroy` runs `if (_pointer != nullptr) { _deleter(_pointer);
_pointer = nullptr; }` — the object dies only if the deleter destroys it.
`shared_block::destroy` runs `allocator_traits::destroy(_allocator, &_object)`
unconditionally. -/
def blockDestroy (st : BlockState) : BlockState :=
  match st.variant with
  | .regular =>
      if st.blockPtr then
        let st1 := if st.deleterDestroys then objectDestruction st else st
        { st1 with blockPtr := false }
      else st
  | .colocated => objectDestruction st

namespace SP

/-- Default-constructed `SharedPtr()`: both members null. -/
def nullHandle : SP := ⟨false, false⟩

/-- Private constructor `SharedPtr(int val, T* ptr, base_block* cb)`:
`if (_control_block != nullptr) _control_block->_shared_counter += val;`. -/
def mkPrivate (val : Nat) (p hasBlock : Bool) (st : BlockState) : SP × BlockState :=
  if hasBlock then (⟨p, true⟩, { st with shared := st.shared + val })
  else (⟨p, false⟩, st)

/-- Copy constructor `SharedPtr(const SharedPtr&)`: shares both members,
`if (_control_block != nullptr) _control_block->_shared_counter += 1;`. -/
def copy (a : SP) (st : BlockState) : SP × BlockState :=
  if a.hasBlock then (a, { st with shared := st.shared + 1 }) else (a, st)

/-- Converting copy constructor `template<U> SharedPtr(const SharedPtr<U>&)`:
`_ptr = dynamic_cast<T*>(another._ptr)` (null when the dynamic type is
incompatible — `castOk` records whether the cast succeeds on a non-null
source), the block is shared and the strong counter incremented when the
block is non-null. -/
def convCopy (castOk : Bool) (a : SP) (st : BlockState) : SP × BlockState :=
  if a.hasBlock then (⟨castOk && a.ptr, true⟩, { st with shared := st.shared + 1 })
  else (⟨castOk && a.ptr, false⟩, st)

/-- Move constructor `SharedPtr(SharedPtr&&)`: takes both members, nulls the
source, touches no counter.  Returns (destination, emptied source) and the
unchanged block state. -/
def move (a : SP) (st : BlockState) : (SP × SP) × BlockState :=
  ((a, nullHandle), st)

/-- Converting move constructor `template<U> SharedPtr(SharedPtr<U>&&)`:
`_ptr = dynamic_cast<T*>(another._ptr)`, block transferred, source nulled,
no counter change. -/
def convMove (castOk : Bool) (a : SP) (st : BlockState) : (SP × SP) × BlockState :=
  ((⟨castOk && a.ptr, a.hasBlock⟩, nullHandle), st)

/-- Member `use_count()`: `0` when `_control_block == nullptr`, else
`_control_block->_shared_counter`. -/
def use_count (a : SP) (st : BlockState) : Nat :=
  if a.hasBlock then st.shared else 0

/-- Destructor `~SharedPtr()`: early return on null block; otherwise decrement
the strong counter; if it is `0` and the local `_ptr` is non-null, call
`destroy()`; then (re-reading the counters, which `destroy()` may have
changed reentrantly) if both counters are `0`, call `deallocate()`. -/
def dtor (a : SP) (st : BlockState) : BlockState :=
  if a.hasBlock then
    let st1 := { st with shared := st.shared - 1 }
    let st2 := if st1.shared = 0 ∧ a.ptr = true then blockDestroy st1 else st1
    if st2.shared = 0 ∧ st2.weak = 0 then blockDeallocate st2 else st2
  else st

/-- Member `swap`: exchanges `_ptr` and `_control_block` of the two handles;
the counters are untouched. -/
def swap (a b : SP) : SP × SP := (b, a)

/-- Copy assignment `operator=(const SharedPtr& another)` for distinct
objects: `SharedPtr(another).swap(*this);` — build a counted copy, swap it
into place, and let the temporary (now holding the old value of `*this`)
run its destructor. -/
def assignCopy (target src : SP) (st : BlockState) : SP × BlockState :=
  let (tmp, st1) := copy src st
  let (tmp1, newTarget) := swap tmp target
  (newTarget, dtor tmp1 st1)

/-- Self copy assignment `p = p`: the same statements as `assignCopy`, but
the source alias is `*this` itself, so the copy reads `p` and the swap
exchanges two identical values. -/
def selfAssignCopy (p : SP) (st : BlockState) : SP × BlockState :=
  let (tmp, st1) := copy p st
  let (tmp1, newTarget) := swap tmp p
  (newTarget, dtor tmp1 st1)

/-- Self move assignment `p = std::move(p)`:
`SharedPtr(std::move(another)).swap(*this);` with `another` aliasing `*this` —
the move constructor empties `*this` while the temporary takes its members,
the swap hands them back, and the temporary (now empty) is destructed. -/
def selfAssignMove (p : SP) (st : BlockState) : SP × BlockState :=
  let ((tmp, pMoved), st1) := move p st
  let (tmp1, newTarget) := swap tmp pMoved
  (newTarget, dtor tmp1 st1)

end SP

namespace WP

/-- Default-constructed `WeakPtr()`: both members null. -/
def nullHandle : WP := ⟨false, false⟩

/-- Copy constructor `WeakPtr(const WeakPtr&)`: shares both members,
`if (_control_block != nullptr) ++_control_block->_weak_counter;`. -/
def copy (a : WP) (st : BlockState) : WP × BlockState :=
  if a.hasBlock then (a, { st with weak := st.weak + 1 }) else (a, st)

/-- Converting constructor `template<U> WeakPtr(const SharedPtr<U>&)`: shares
the pointer and block of the strong handle and increments the weak counter
when the block is non-null. -/
def fromShared (a : SP) (st : BlockState) : WP × BlockState :=
  if a.hasBlock then (⟨a.ptr, true⟩, { st with weak := st.weak + 1 })
  else (⟨a.ptr, false⟩, st)

/-- Move constructor `WeakPtr(WeakPtr&&)`: takes both members, nulls the
source, touches no counter. -/
def move (a : WP) (st : BlockState) : (WP × WP) × BlockState :=
  ((a, nullHandle), st)

/-- Member `lock()`: `return SharedPtr<T>(1, _ptr, _control_block);` — the
private constructor adds `1` to the strong counter whenever the block is
non-null, with no check of its current value. -/
def lock (a : WP) (st : BlockState) : SP × BlockState :=
  SP.mkPrivate 1 a.ptr a.hasBlock st

/-- Member `use_count()`: `0` when `_control_block == nullptr`, else
`_control_block->_shared_counter`. -/
def use_count (a : WP) (st : BlockState) : Nat :=
  if a.hasBlock then st.shared else 0

/-- Member `expired()`: `use_count() == 0`. -/
def expired (a : WP) (st : BlockState) : Bool :=
  use_count a st == 0

/-- Destructor `~WeakPtr()`: early return on null block; otherwise decrement
the weak counter and, if both counters are `0`, call `deallocate()`. -/
def dtor (a : WP) (st : BlockState) : BlockState :=
  if a.hasBlock then
    let st1 := { st with weak := st.weak - 1 }
    if st1.shared = 0 ∧ st1.weak = 0 then blockDeallocate st1 else st1
  else st

/-- Member `swap`: exchanges `_ptr` and `_control_block`. -/
def swap (a b : WP) : WP × WP := (b, a)

/-- Copy assignment `operator=(const WeakPtr& another)` for distinct objects:
`WeakPtr copy(another); swap(copy);` and the local copy (now holding the old
value of `*this`) is destructed at scope end. -/
def assignCopy (target src : WP) (st : BlockState) : WP × BlockState :=
  let (tmp, st1) := copy src st
  let (newTarget, tmp1) := swap target tmp
  (newTarget, dtor tmp1 st1)

end WP

/-- Fresh `regular_block` state as built by `new block_type(1, 0, ptr, del,
allocator)` in the raw-pointer `SharedPtr` constructor. -/
def regularBlockInit (deleterDestroys : Bool) : BlockState :=
  { shared := 1, weak := 0, variant := .regular, blockPtr := true,
    deleterDestroys := deleterDestroys, objAlive := true,
    embeddedWeak := false, allocated := true,
    destroyCount := 0, deallocCount := 0 }

/-- Fresh `shared_block` state as built by
`construct(alloc, control_block, 1, 0, allocator, args...)` in
`allocateShared`. -/
def sharedBlockInit : BlockState :=
  { shared := 1, weak := 0, variant := .colocated, blockPtr := true,
    deleterDestroys := true, objAlive := true,
    embeddedWeak := false, allocated := true,
    destroyCount := 0, deallocCount := 0 }

/-- Raw-pointer constructor `SharedPtr(U* ptr, Deleter, Allocator)` for a type
`U` that does NOT derive `EnableSharedFromThis<U>` (the `else` branch of the
`if constexpr`): allocate storage, placement-new a `regular_block(1, 0, ptr,
del, allocator)`. -/
def sharedPtrCtorRaw (rawPtrNonNull deleterDestroys : Bool) : SP × BlockState :=
  (⟨rawPtrNonNull, true⟩, regularBlockInit deleterDestroys)

/-- Result of the raw-pointer constructor in the `EnableSharedFromThis`
branch: either the new handle aliases the block already referenced by the
object's stored `_weak_ptr`, or a fresh `regular_block` is allocated and the
updated embedded weak handle is installed on the object; `freshAllocated`
distinguishes the two outcomes. -/
structure ESFTCtorResult where
  handle : SP
  blockState : BlockState
  freshAllocated : Bool
  objWeakAfter : WP
deriving DecidableEq

/-- Member `set_pointer(const SharedPtr<U>& ptr)` of `EnableSharedFromThis`:
`_weak_ptr = ptr;` — the `SharedPtr` converts to a temporary `WeakPtr`
(weak counter +1), copy assignment runs (its own temporary copy +1, swap,
the displaced old value destructed), and the converting temporary is
destructed at the end of the statement.  Takes the object's current
`_weak_ptr` and the block state of the block `ptr` references; returns the
new `_weak_ptr` and the state, whose `embeddedWeak` field records whether
the object's member now references this block (model bookkeeping for the
reentrant member destruction inside `destroy()`). -/
def setPointer (objWeak : WP) (p : SP) (st : BlockState) : WP × BlockState :=
  let (w1, st1) := WP.fromShared p st
  let (objWeak1, st2) := WP.assignCopy objWeak w1 st1
  let st3 := WP.dtor w1 st2
  (objWeak1, { st3 with embeddedWeak := objWeak1.hasBlock })

/-- Raw-pointer constructor `SharedPtr(U* ptr, Deleter, Allocator)` for a type
`U` deriving `EnableSharedFromThis<U>` (the `if constexpr` branch):
`SharedPtr<U> shared_ptr = ptr->shared_from_this();` (that is,
`_weak_ptr.lock()`); if `shared_ptr.use_count() != 0`, `*this = shared_ptr`
and return (the temporary `shared_ptr` is then destructed); otherwise
allocate a fresh `regular_block(1, 0, ptr, del, allocator)` and call
`ptr->set_pointer(*this)`.  `objWeak` is the object's stored `_weak_ptr`
and `stA` the state of the block it references (when it references one);
in the fresh branch the returned state is that of the newly allocated
block. -/
def sharedPtrCtorESFT (rawPtrNonNull : Bool) (objWeak : WP) (stA : BlockState)
    (deleterDestroys : Bool) : ESFTCtorResult :=
  let (sharedFromThis, st1) := WP.lock objWeak stA
  if SP.use_count sharedFromThis st1 ≠ 0 then
    let thisInit : SP := ⟨rawPtrNonNull, false⟩
    let (thisAfter, st2) := SP.assignCopy thisInit sharedFromThis st1
    ⟨thisAfter, SP.dtor sharedFromThis st2, false, objWeak⟩
  else
    let stB := regularBlockInit deleterDestroys
    let thisHandle : SP := ⟨rawPtrNonNull, true⟩
    let (objWeak1, stB1) := setPointer WP.nullHandle thisHandle stB
    ⟨thisHandle, stB1, true, objWeak1⟩

/-- Factory `allocateShared<T>(allocator, args...)`: allocate storage for a
`shared_block` (the ledger counts outstanding block-storage allocations),
then `construct(alloc, control_block, 1, 0, allocator, args...)` — if the
managed object's constructor raises there, the exception propagates with no
handler in `allocateShared`, so the error case carries the ledger as it
stands at that moment; on success the handle is built by the private
constructor `SharedPtr<T>(0, &control_block->_object, control_block)`. -/
def allocateShared (ctorRaises : Bool) (ledger : Nat) :
    Except Nat (SP × BlockState × Nat) :=
  let ledger1 := ledger + 1
  if ctorRaises then Except.error ledger1
  else
    let (p, st) := SP.mkPrivate 0 true true sharedBlockInit
    Except.ok (p, st, ledger1)

/-- Iterated copy construction: `copyN n p st` performs `n` successive copy
constructions of the strong handle `p` (each of the copies equals `p`, since
a copy shares both members) and returns the resulting block state. -/
def copyN : Nat → SP → BlockState → BlockState
  | 0, _, st => st
  | n + 1, p, st => copyN n p (SP.copy p st).2

/-!
Helper lemmas: none of the block operations other than the strong-handle
constructors and destructor touch `_shared_counter`.
-/

lemma blockDeallocate_shared (st : BlockState) :
    (blockDeallocate st).shared = st.shared := rfl

lemma embeddedWeakDtor_shared (st : BlockState) :
    (embeddedWeakDtor st).shared = st.shared := by
  simp only [embeddedWeakDtor]
  split
  · rfl
  · rfl

lemma objectDestruction_shared (st : BlockState) :
    (objectDestruction st).shared = st.shared := by
  simp only [objectDestruction]
  split
  · rw [embeddedWeakDtor_shared]
  · rfl

lemma blockDestroy_shared (st : BlockState) :
    (blockDestroy st).shared = st.shared := by
  cases hv : st.variant <;> simp only [blockDestroy, hv]
  · split
    · split
      · rw [objectDestruction_shared]
      · rfl
    · rfl
  · rw [objectDestruction_shared]

lemma SP_dtor_shared (p : SP) (st : BlockState) (hp : p.hasBlock = true) :
    (SP.dtor p st).shared = st.shared - 1 := by
  simp only [SP.dtor, hp, if_true]
  split
  · split
    · rw [blockDeallocate_shared, blockDestroy_shared]
    · rw [blockDestroy_shared]
  · split
    · rw [blockDeallocate_shared]
    · rfl

lemma copyN_shared (p : SP) (hp : p.hasBlock = true) :
    ∀ (n : Nat) (st : BlockState), (copyN n p st).shared = st.shared + n := by
  intro n
  induction n with
  | zero => intro st; rfl
  | succ n ih =>
      intro st
      simp only [copyN]
      rw [ih]
      simp [SP.copy, hp]
      omega

/-- Block state of an expired colocated control block (the managed object was
destroyed when the strong count reached `0`) still observed by one weak
handle. -/
def expiredBlockState : BlockState :=
  { shared := 0, weak := 1, variant := .colocated, blockPtr := true,
    deleterDestroys := true, objAlive := false, embeddedWeak := false,
    allocated := true, destroyCount := 1, deallocCount := 0 }

/-- Claim C1: the claim states that `lock()` on a weak handle whose block has
`strong_count == 0` returns an empty strong handle (null pointer,
`use_count() == 0`) without incrementing the strong count.  The code instead
runs `SharedPtr<T>(1, _ptr, _control_block)`, which unconditionally adds `1`
to the strong counter and copies the stored pointer: on an expired block the
result has a non-null pointer, `use_count() == 1`, and the strong count is
resurrected from `0` to `1`. -/
theorem lock_on_expired_resurrects :
    (WP.lock ⟨true, true⟩ expiredBlockState).2.shared = 1 ∧
    (WP.lock ⟨true, true⟩ expiredBlockState).1.ptr = true ∧
    SP.use_count (WP.lock ⟨true, true⟩ expiredBlockState).1
      (WP.lock ⟨true, true⟩ expiredBlockState).2 = 1 := by
  decide

/-- Trace for claim C2: `allocateShared` produces the sole strong handle;
a weak handle is taken from it; the strong handle is destroyed (object
destruction number one); the weak handle is locked — resurrecting the strong
count — and the locked handle is destroyed, running the object's destruction
a second time. -/
def resurrectionTrace : BlockState :=
  let p : SP := ⟨true, true⟩
  let (w, st1) := WP.fromShared p sharedBlockInit
  let st2 := SP.dtor p st1
  let (s, st3) := WP.lock w st2
  SP.dtor s st3

/-- Claim C2: the claim states the managed object is destroyed exactly once,
at the strong-count transition from `1` to `0`, over any sequence of handle
operations.  On the concrete sequence of `resurrectionTrace` (drop the last
strong handle, `lock()` the surviving weak handle, drop the locked handle)
the code runs the object's destruction twice, because `lock()` resurrects the
strong count from `0`. -/
theorem object_destroyed_twice_after_resurrection :
    allocateShared false 0 = Except.ok (⟨true, true⟩, sharedBlockInit, 1) ∧
    resurrectionTrace.destroyCount = 2 :=
  ⟨rfl, by decide⟩

/-- Trace for claim C3: a raw pointer to an object deriving
`EnableSharedFromThis` is wrapped (fresh `regular_block`, embedded weak
observation installed by `set_pointer`), then the sole strong handle is
destroyed.  The `stA` argument is irrelevant here because the object's
stored `_weak_ptr` is empty at construction time. -/
def esftCreateDropTrace : BlockState :=
  let r := sharedPtrCtorESFT true WP.nullHandle sharedBlockInit true
  SP.dtor r.handle r.blockState

/-- Claim C3: the claim states `deallocate()` runs exactly once, at the first
moment both counters are `0`.  On `esftCreateDropTrace` the strong-handle
destructor decrements the strong count to `0` and calls `destroy()`; the
deleter destroys the object, whose embedded `WeakPtr` member destructor
decrements the weak count to `0` and — both counters now being `0` — calls
`deallocate()`; control then returns to `~SharedPtr()`, which re-checks the
counters and calls `deallocate()` a second time. -/
theorem block_storage_freed_twice_with_esft :
    (sharedPtrCtorESFT true WP.nullHandle sharedBlockInit true).blockState.deallocCount = 0 ∧
    esftCreateDropTrace.deallocCount = 2 := by
  decide

/-- Claim C4: the claim states that when the managed object's constructor
raises inside `allocateShared`, the already-allocated control-block storage
is reclaimed before the error propagates.  The code has no handler around
`construct(alloc, control_block, 1, 0, allocator, args...)`: the error case
carries `ledger + 1` outstanding block-storage allocations — strictly more
than before the call — so the allocation is leaked, contradicting the
claim. -/
theorem allocateShared_leaks_when_ctor_raises (ledger : Nat) :
    allocateShared true ledger = Except.error (ledger + 1) ∧
    ledger + 1 ≠ ledger :=
  ⟨rfl, Nat.succ_ne_self ledger⟩

/-- Claim C5: a cross-type strong-handle copy whose `dynamic_cast` fails
yields a handle with a null raw pointer that still shares the source's block
and increments the strong count; the failed-cast move yields the same hollow
handle with the block transferred (source emptied) and no count change. -/
theorem incompatible_conversion_hollow_handle (a : SP) (st : BlockState)
    (ha : a.hasBlock = true) :
    SP.convCopy false a st = (⟨false, true⟩, { st with shared := st.shared + 1 }) ∧
    SP.convMove false a st = ((⟨false, true⟩, SP.nullHandle), st) := by
  simp [SP.convCopy, SP.convMove, ha]

/-- Witness for claim C5 at a concrete handle and block state. -/
theorem incompatible_conversion_hollow_handle_witness :
    SP.convCopy false ⟨true, true⟩ sharedBlockInit =
      (⟨false, true⟩, { sharedBlockInit with shared := sharedBlockInit.shared + 1 }) ∧
    SP.convMove false ⟨true, true⟩ sharedBlockInit =
      ((⟨false, true⟩, SP.nullHandle), sharedBlockInit) :=
  incompatible_conversion_hollow_handle ⟨true, true⟩ sharedBlockInit rfl

/-- Block state of an expired `regular_block` whose managed object is still
alive (it was wrapped with a no-op deleter, so `destroy()` nulled the block's
pointer without ending the object's lifetime) and still holds its embedded
weak observation of this block. -/
def expiredSelfObservingState : BlockState :=
  { shared := 0, weak := 1, variant := .regular, blockPtr := false,
    deleterDestroys := false, objAlive := true, embeddedWeak := true,
    allocated := true, destroyCount := 0, deallocCount := 0 }

/-- Claim C6: the claim states that when the object's existing strong handle
has strong count zero, the constructor allocates a new owning-allocation
block with `strong_count = 1, weak_count = 0` and registers a weak
observation.  On an object whose stored `_weak_ptr` references an expired
block, `shared_from_this()` uses the unchecked `lock()`, which resurrects the
strong count to `1`; `use_count() != 0` then holds, so the constructor
aliases the expired block (`freshAllocated = false`) instead of allocating a
fresh one, and `set_pointer` is never called. -/
theorem esft_ctor_aliases_expired_block :
    sharedPtrCtorESFT true ⟨true, true⟩ expiredSelfObservingState false =
      ⟨⟨true, true⟩, { expiredSelfObservingState with shared := 1 }, false,
        ⟨true, true⟩⟩ := by
  decide

/-- Claim C7: starting from a block with one strong handle, making `N - 1`
further copies gives `use_count() == N` on the handle; destroying one copy
gives `use_count() == N - 1`; `use_count()` on a handle with no control block
is `0`. -/
theorem use_count_tracks_copies (N : Nat) (p : SP) (st0 : BlockState)
    (hp : p.hasBlock = true) (h1 : st0.shared = 1) (hN : 1 ≤ N) :
    SP.use_count p (copyN (N - 1) p st0) = N ∧
    SP.use_count p (SP.dtor p (copyN (N - 1) p st0)) = N - 1 ∧
    SP.use_count SP.nullHandle (copyN (N - 1) p st0) = 0 := by
  have hc := copyN_shared p hp (N - 1) st0
  refine ⟨?_, ?_, rfl⟩
  · simp only [SP.use_count, hp, if_true]
    rw [hc, h1]
    omega
  · simp only [SP.use_count, hp, if_true]
    rw [SP_dtor_shared p _ hp, hc, h1]
    omega

/-- Witness for claim C7 at `N = 3` on the handle produced by
`allocateShared`. -/
theorem use_count_tracks_copies_witness :
    SP.use_count ⟨true, true⟩ (copyN (3 - 1) ⟨true, true⟩ sharedBlockInit) = 3 ∧
    SP.use_count ⟨true, true⟩
      (SP.dtor ⟨true, true⟩ (copyN (3 - 1) ⟨true, true⟩ sharedBlockInit)) = 3 - 1 ∧
    SP.use_count SP.nullHandle (copyN (3 - 1) ⟨true, true⟩ sharedBlockInit) = 0 :=
  use_count_tracks_copies 3 ⟨true, true⟩ sharedBlockInit rfl rfl (by decide)

/-- Claim C8: `allocateShared` returns a single strong handle with
`use_count() == 1` and a non-null pointer into the colocated block (one
storage allocation), and destroying that sole handle with no weak handles
outstanding destroys the object exactly once and frees the combined
allocation exactly once. -/
theorem createInPlace_roundtrip :
    allocateShared false 0 = Except.ok (⟨true, true⟩, sharedBlockInit, 1) ∧
    SP.use_count ⟨true, true⟩ sharedBlockInit = 1 ∧
    (SP.dtor ⟨true, true⟩ sharedBlockInit).destroyCount = 1 ∧
    (SP.dtor ⟨true, true⟩ sharedBlockInit).objAlive = false ∧
    (SP.dtor ⟨true, true⟩ sharedBlockInit).deallocCount = 1 ∧
    (SP.dtor ⟨true, true⟩ sharedBlockInit).allocated = false :=
  ⟨rfl, by decide, by decide, by decide, by decide, by decide⟩

/-- Claim C9: self copy assignment and self move assignment leave the handle
and the whole block state (counters, destruction and deallocation counts)
unchanged, for every handle whose block, when present, has a strong count
accounting for the handle itself. -/
theorem self_assignment_identity (p : SP) (st : BlockState)
    (h : p.hasBlock = true → 1 ≤ st.shared) :
    SP.selfAssignCopy p st = (p, st) ∧ SP.selfAssignMove p st = (p, st) := by
  constructor
  · cases hp : p.hasBlock
    · simp [SP.selfAssignCopy, SP.copy, SP.swap, SP.dtor, hp]
    · have h1 := h hp
      have hne0 : st.shared ≠ 0 := by omega
      simp [SP.selfAssignCopy, SP.copy, SP.swap, SP.dtor, hp, hne0]
  · rfl

/-- Witness for claim C9 on the handle produced by `allocateShared`. -/
theorem self_assignment_identity_witness :
    SP.selfAssignCopy ⟨true, true⟩ sharedBlockInit = (⟨true, true⟩, sharedBlockInit) ∧
    SP.selfAssignMove ⟨true, true⟩ sharedBlockInit = (⟨true, true⟩, sharedBlockInit) :=
  self_assignment_identity ⟨true, true⟩ sharedBlockInit (fun _ => by decide)

/-- Claim C10: every operation on an empty handle (null control block) is
total and leaves the block state untouched: copy construction, copy
assignment, and destruction of empty strong and weak handles change no
counter and call neither `destroy()` nor `deallocate()`; `use_count()`
returns `0`, `expired()` returns `true`, and `lock()` on an empty weak handle
returns an empty strong handle without touching the block. -/
theorem empty_handle_operations_noop (st : BlockState) :
    SP.copy SP.nullHandle st = (SP.nullHandle, st) ∧
    SP.assignCopy SP.nullHandle SP.nullHandle st = (SP.nullHandle, st) ∧
    SP.dtor SP.nullHandle st = st ∧
    SP.use_count SP.nullHandle st = 0 ∧
    WP.copy WP.nullHandle st = (WP.nullHandle, st) ∧
    WP.assignCopy WP.nullHandle WP.nullHandle st = (WP.nullHandle, st) ∧
    WP.fromShared SP.nullHandle st = (WP.nullHandle, st) ∧
    WP.dtor WP.nullHandle st = st ∧
    WP.use_count WP.nullHandle st = 0 ∧
    WP.expired WP.nullHandle st = true ∧
    WP.lock WP.nullHandle st = (SP.nullHandle, st) :=
  ⟨rfl, rfl, rfl, rfl, rfl, rfl, rfl, rfl, rfl, rfl, rfl⟩
